import Mathlib

/-!
Verification of the EZ-MCP demo server (`ez-mcp.ts`).

The server registers three capabilities on an SDK-provided `McpServer`:
a `server-info` resource, a `hello-someone` tool and a `greeting-prompt`
prompt.  Each handler reads the environment variable `GREETING_PREFIX`
(default `"Hello"`) at invocation time.  We embed the environment, the
result shapes and the three handler bodies, and prove the specified
properties about them.
-/

namespace EzMcp

/-- The Deno environment as seen by the handlers: `Deno.env.get` returns
an optional string for each of the two variables the program reads. -/
structure Env where
  greetingPrefix? : Option String
  environment? : Option String
  deriving Repr, DecidableEq

/-- `Deno.env.get("GREETING_PREFIX") ?? "Hello"` as it appears in each handler. -/
def greetingPrefixOf (env : Env) : String :=
  env.greetingPrefix?.getD "Hello"

/-- `Deno.env.get("ENVIRONMENT") ?? "development"`, used only in the startup banner. -/
def environmentOf (env : Env) : String :=
  env.environment?.getD "development"

/-- Whitespace per ECMAScript `String.prototype.trim` (WhiteSpace and
LineTerminator): TAB LF VT FF CR SP NBSP OGHAM-SPACE, EN-QUAD through
HAIR-SPACE, LS PS NNBSP MMSP IDEOGRAPHIC-SPACE ZWNBSP, by code point. -/
def isJsWhitespace (c : Char) : Bool :=
  c.toNat = 0x9 || c.toNat = 0xa || c.toNat = 0xb || c.toNat = 0xc || c.toNat = 0xd ||
  c.toNat = 0x20 || c.toNat = 0xa0 || c.toNat = 0x1680 ||
  (0x2000 <= c.toNat && c.toNat <= 0x200a) ||
  c.toNat = 0x2028 || c.toNat = 0x2029 || c.toNat = 0x202f || c.toNat = 0x205f ||
  c.toNat = 0x3000 || c.toNat = 0xfeff

/-- Remove trailing characters satisfying `p`. -/
def dropTrailing (p : Char → Bool) (l : List Char) : List Char :=
  (l.reverse.dropWhile p).reverse

/-- `name.trim()` on the underlying character list. -/
def jsTrimList (l : List Char) : List Char :=
  dropTrailing isJsWhitespace (l.dropWhile isJsWhitespace)

/-- JavaScript `String.prototype.trim`. -/
def jsTrim (s : String) : String :=
  ⟨jsTrimList s.data⟩

/-- One `{ type: "text", text: ... }` content item. -/
structure TextContent where
  type : String
  text : String
  deriving Repr, DecidableEq

/-- The value a tool handler returns: a content list and an optional
`isError` field (`none` models the field being absent from the object). -/
structure ToolResult where
  content : List TextContent
  isError? : Option Bool
  deriving Repr, DecidableEq

/-- The effective error flag of a tool result: an absent `isError`
field reads as false (JS `undefined` is falsy). -/
def ToolResult.isErrorFlag (r : ToolResult) : Bool :=
  r.isError?.getD false

/-- One `{ uri, text }` resource content item. -/
structure ResourceContent where
  uri : String
  text : String
  deriving Repr, DecidableEq

/-- The value a resource handler returns. -/
structure ResourceResult where
  contents : List ResourceContent
  deriving Repr, DecidableEq

/-- One prompt message `{ role, content }`. -/
structure PromptMessage where
  role : String
  content : TextContent
  deriving Repr, DecidableEq

/-- The value a prompt handler returns. -/
structure PromptResult where
  messages : List PromptMessage
  deriving Repr, DecidableEq

/-!  ## The `server-info` resource handler  -/

/-- The `info` object literal built by the `server-info` handler. -/
structure ServerInfo where
  name : String
  version : String
  description : String
  features : List String
  author : String
  status : String
  greeting_prefix : String
  sample_greeting : String
  deriving Repr, DecidableEq

/-- The `info` object of `server-info`, field for field from the source. -/
def serverInfoObj (env : Env) : ServerInfo :=
  let greetingPrefix := greetingPrefixOf env
  { name := "EZ-MCP Demo Server"
    version := "1.0.0"
    description := "A simple MCP server demonstrating basic functionality"
    features := ["hello-someone tool", "greeting-prompt prompt", "server-info resource"]
    author := "EZ-MCP"
    status := "running"
    greeting_prefix := greetingPrefix
    sample_greeting := greetingPrefix ++ ", World!" }

/-- Hex digit used by `JSON.stringify` control-character escapes. -/
def hexDigit (n : Nat) : Char :=
  if n < 10 then Char.ofNat (48 + n) else Char.ofNat (87 + n)

/-- `JSON.stringify` escaping of a single character. -/
def jsonEscapeChar (c : Char) : List Char :=
  if c = '"' then ['\\', '"']
  else if c = '\\' then ['\\', '\\']
  else if c = '\x08' then ['\\', 'b']
  else if c = '\t' then ['\\', 't']
  else if c = '\n' then ['\\', 'n']
  else if c = '\x0c' then ['\\', 'f']
  else if c = '\r' then ['\\', 'r']
  else if c.toNat < 32 then
    ['\\', 'u', '0', '0', hexDigit (c.toNat / 16), hexDigit (c.toNat % 16)]
  else [c]

/-- `JSON.stringify` serialization of a string value, quotes included. -/
def jsonStr (s : String) : String :=
  ⟨'"' :: (s.data.flatMap jsonEscapeChar) ++ ['"']⟩

/-- `JSON.stringify(·, null, 2)` of a string array nested at depth 1. -/
def jsonStrArray (xs : List String) : String :=
  match xs with
  | [] => "[]"
  | _ => "[\n" ++ String.intercalate ",\n" (xs.map (fun x => "    " ++ jsonStr x)) ++ "\n  ]"

/-- `JSON.stringify(info, null, 2)`: two-space indentation, keys in
insertion order, exactly the eight fields of the `info` literal. -/
def jsonStringifyInfo (i : ServerInfo) : String :=
  "\x7b\n  \"name\": " ++ jsonStr i.name ++
  ",\n  \"version\": " ++ jsonStr i.version ++
  ",\n  \"description\": " ++ jsonStr i.description ++
  ",\n  \"features\": " ++ jsonStrArray i.features ++
  ",\n  \"author\": " ++ jsonStr i.author ++
  ",\n  \"status\": " ++ jsonStr i.status ++
  ",\n  \"greeting_prefix\": " ++ jsonStr i.greeting_prefix ++
  ",\n  \"sample_greeting\": " ++ jsonStr i.sample_greeting ++
  "\n\x7d"

/-- The `server-info` resource handler (`uriHref` is `uri.href`). -/
def serverInfo (env : Env) (uriHref : String) : ResourceResult :=
  { contents := [{ uri := uriHref, text := jsonStringifyInfo (serverInfoObj env) }] }

/-!  ## The `hello-someone` tool handler  -/

/-- The `hello-someone` tool handler.  `if (!name.trim())` tests the
trimmed string for emptiness; the success branch omits `isError`. -/
def helloSomeone (env : Env) (name : String) : ToolResult :=
  if jsTrim name = "" then
    { content := [{ type := "text", text := "Error: Please provide a name" }]
      isError? := some true }
  else
    let trimmedName := jsTrim name
    let greetingPrefix := greetingPrefixOf env
    { content := [{ type := "text"
                    text := greetingPrefix ++ ", " ++ trimmedName ++ "! Nice to meet you!" }]
      isError? := none }

/-!  ## The `greeting-prompt` prompt handler  -/

/-- The template literal of `greeting-prompt`, with `person_name` and the
greeting prefix interpolated (the source line `3. Professional yet
friendly` carries two trailing spaces). -/
def greetingPromptText (env : Env) (person_name : String) : String :=
  let greetingPrefix := greetingPrefixOf env
  "Please create a warm and friendly greeting for " ++ person_name ++
  " that starts with \"" ++ greetingPrefix ++
  "\".\n\nThe greeting should be:\n1. Begin with the word \"" ++ greetingPrefix ++
  "\"\n2. Be warm and welcoming\n3. Professional yet friendly  \n4. Appropriate for a first meeting\n5. Memorable and personal\n\nExample format: \"" ++
  greetingPrefix ++
  ", [name]! [additional friendly message]\"\n\nMake it genuine and engaging."

/-- The `greeting-prompt` prompt handler. -/
def greetingPrompt (env : Env) (person_name : String) : PromptResult :=
  { messages := [{ role := "user"
                   content := { type := "text"
                                text := greetingPromptText env person_name } }] }

/-!  ## Dispatch of successive requests  -/

/-- An inbound request naming one of the three registered capabilities. -/
inductive Request where
  | tool : String → Request
  | resource : String → Request
  | prompt : String → Request
  deriving Repr, DecidableEq

/-- The result of dispatching one request. -/
inductive DispatchResult where
  | tool : ToolResult → DispatchResult
  | resource : ResourceResult → DispatchResult
  | prompt : PromptResult → DispatchResult
  deriving Repr, DecidableEq

/-- Dispatch one request under the environment current at invocation
time: every handler re-reads the environment on each call. -/
def dispatch (env : Env) (r : Request) : DispatchResult :=
  match r with
  | .tool name => .tool (helloSomeone env name)
  | .resource uri => .resource (serverInfo env uri)
  | .prompt person_name => .prompt (greetingPrompt env person_name)

/-- Run a sequence of dispatches, each under the environment in force
when it is dispatched (the environment may change between calls). -/
def runSeq (l : List (Env × Request)) : List DispatchResult :=
  l.map (fun er => dispatch er.1 er.2)

/-- The per-startup banner line for `ENVIRONMENT` — its only use. -/
def bannerEnvironmentLine (env : Env) : String :=
  "   • Environment: " ++ environmentOf env

/-!  ## The dispatch boundary for handler exceptions

Modelled from the spec: the boundary that catches handler-thrown
exceptions lives in the external protocol SDK (the library `McpServer`
dispatch loop), not in this repository source file.  Per §4.1 and §7 of
the spec, a tool or prompt handler exception is converted into an
in-band error result (`isError: true`, descriptive text); a resource
handler exception is surfaced as a dispatch-level (protocol-level)
failure, since resource results have no error-content channel. -/

/-- Modelled from the spec: the outcome of running a handler body — a
normal value, or an exception carrying a message. -/
inductive HandlerOutcome (α : Type) where
  | ok : α → HandlerOutcome α
  | thrown : String → HandlerOutcome α
  deriving Repr, DecidableEq

/-- Modelled from the spec: the in-band error result a caught tool or
prompt handler exception is converted to (`isError: true`, descriptive
text). -/
def inBandError (msg : String) : ToolResult :=
  { content := [{ type := "text", text := "Error: " ++ msg }]
    isError? := some true }

/-- Modelled from the spec: the dispatch boundary for the tool kind —
exceptions are caught and converted, never propagated. -/
def dispatchBoundaryTool : HandlerOutcome ToolResult → ToolResult
  | .ok r => r
  | .thrown msg => inBandError msg

/-- Modelled from the spec: what a prompt call yields past the boundary —
the normal prompt result, or the in-band error result shape. -/
inductive PromptCallOutput where
  | ok : PromptResult → PromptCallOutput
  | errorResult : ToolResult → PromptCallOutput
  deriving Repr, DecidableEq

/-- Modelled from the spec: the dispatch boundary for the prompt kind. -/
def dispatchBoundaryPrompt : HandlerOutcome PromptResult → PromptCallOutput
  | .ok r => .ok r
  | .thrown msg => .errorResult (inBandError msg)

/-- Modelled from the spec: the dispatch boundary for the resource kind —
an exception becomes a dispatch-level failure (`Except.error`). -/
def dispatchBoundaryResource : HandlerOutcome ResourceResult → Except String ResourceResult
  | .ok r => .ok r
  | .thrown msg => .error msg

/-!  ## Lemmas about JavaScript trimming  -/

/-- If `dropWhile` removes nothing from a cons, its head fails `p`. -/
theorem dropWhile_head_false {p : Char → Bool} {a : Char} {l : List Char}
    (h : List.dropWhile p (a :: l) = a :: l) : p a = false := by
  cases hpa : p a with
  | false => rfl
  | true =>
    rw [List.dropWhile_cons, hpa] at h
    simp only [if_true] at h
    have hs : List.dropWhile p l <:+ l := List.dropWhile_suffix p
    rw [h] at hs
    have hlen := hs.length_le
    simp at hlen

/-- `dropWhile` is idempotent. -/
theorem dropWhile_idem (p : Char → Bool) : ∀ l : List Char,
    List.dropWhile p (List.dropWhile p l) = List.dropWhile p l
  | [] => rfl
  | a :: l => by
    cases hpa : p a with
    | true => simp only [List.dropWhile_cons, hpa, if_true]; exact dropWhile_idem p l
    | false => simp [List.dropWhile_cons, hpa]

/-- `dropWhile` leaves any initial segment of a `dropWhile`-fixed list alone. -/
theorem dropWhile_eq_self_of_decomp {p : Char → Bool} {l r m : List Char}
    (hm : List.dropWhile p m = m) (hlr : l ++ r = m) :
    List.dropWhile p l = l := by
  cases l with
  | nil => rfl
  | cons a t =>
    rw [List.cons_append] at hlr
    have hpa : p a = false := by
      apply dropWhile_head_false (l := t ++ r)
      rw [hlr]
      exact hm
    simp [List.dropWhile_cons, hpa]

/-- `dropTrailing p m` is an initial segment of `m`. -/
theorem dropTrailing_decomp (p : Char → Bool) (m : List Char) :
    ∃ r, dropTrailing p m ++ r = m := by
  have hs : List.dropWhile p m.reverse <:+ m.reverse := List.dropWhile_suffix p
  obtain ⟨t, ht⟩ := hs
  refine ⟨t.reverse, ?_⟩
  have hrev := congrArg List.reverse ht
  simpa [dropTrailing] using hrev

/-- `dropTrailing` is idempotent. -/
theorem dropTrailing_idem (p : Char → Bool) (m : List Char) :
    dropTrailing p (dropTrailing p m) = dropTrailing p m := by
  unfold dropTrailing
  rw [List.reverse_reverse, dropWhile_idem]

/-- `jsTrimList` is idempotent. -/
theorem jsTrimList_idem (l : List Char) : jsTrimList (jsTrimList l) = jsTrimList l := by
  have h1 := dropWhile_idem isJsWhitespace l
  obtain ⟨r, hr⟩ := dropTrailing_decomp isJsWhitespace (List.dropWhile isJsWhitespace l)
  have h2 := dropWhile_eq_self_of_decomp h1 hr
  simp only [jsTrimList]
  rw [h2, dropTrailing_idem]

/-- JavaScript trimming is idempotent. -/
theorem jsTrim_idem (s : String) : jsTrim (jsTrim s) = jsTrim s := by
  simp only [jsTrim]
  exact congrArg String.mk (jsTrimList_idem s.data)

/-- The trimmed character list is empty exactly when every character is
JavaScript whitespace. -/
theorem jsTrimList_eq_nil_iff (l : List Char) :
    jsTrimList l = [] ↔ ∀ c ∈ l, isJsWhitespace c := by
  simp only [jsTrimList, dropTrailing]
  rw [List.reverse_eq_nil_iff, List.dropWhile_eq_nil_iff]
  constructor
  · intro h c hc
    have hl : List.takeWhile isJsWhitespace l ++ List.dropWhile isJsWhitespace l = l :=
      List.takeWhile_append_dropWhile (p := isJsWhitespace) (l := l)
    rw [← hl] at hc
    rcases List.mem_append.mp hc with h1 | h2
    · exact List.mem_takeWhile_imp h1
    · exact h c (List.mem_reverse.mpr h2)
  · intro h
    have hnil : List.dropWhile isJsWhitespace l = [] := List.dropWhile_eq_nil_iff.mpr h
    rw [hnil]
    simp

/-- The trimmed string is empty exactly when every character of the
input is JavaScript whitespace. -/
theorem jsTrim_eq_empty_iff (s : String) :
    jsTrim s = "" ↔ ∀ c ∈ s.data, isJsWhitespace c := by
  rw [← jsTrimList_eq_nil_iff]
  constructor
  · intro h
    exact congrArg String.data h
  · intro h
    exact congrArg String.mk h

/-!  ## Claims  -/

/-- C1: for every input with at least one non-whitespace character, the
`hello-someone` tool returns a single text content
`"<prefix>, trim(s)! Nice to meet you!"` (where `<prefix>` is the current
`GREETING_PREFIX`, or `"Hello"` if unset) and the result is not an error. -/
theorem hello_someone_success (env : Env) (s : String)
    (h : ∃ c ∈ s.data, isJsWhitespace c = false) :
    helloSomeone env s =
      { content := [{ type := "text"
                      text := greetingPrefixOf env ++ ", " ++ jsTrim s ++ "! Nice to meet you!" }]
        isError? := none } ∧
    ToolResult.isErrorFlag (helloSomeone env s) = false := by
  have hne : jsTrim s ≠ "" := by
    rw [Ne, jsTrim_eq_empty_iff]
    intro hall
    obtain ⟨c, hc, hw⟩ := h
    have := hall c hc
    rw [hw] at this
    exact Bool.false_ne_true this
  constructor
  · simp [helloSomeone, hne]
  · simp [helloSomeone, hne, ToolResult.isErrorFlag]

/-- C1 witness: with the default environment,
`hello-someone("  Grace  ")` returns `"Hello, Grace! Nice to meet you!"`. -/
theorem hello_someone_success_witness :
    (∃ c ∈ ("  Grace  " : String).data, isJsWhitespace c = false) ∧
    (helloSomeone { greetingPrefix? := none, environment? := none } "  Grace  " =
      { content := [{ type := "text", text := "Hello, Grace! Nice to meet you!" }]
        isError? := none } ∧
     ToolResult.isErrorFlag
       (helloSomeone { greetingPrefix? := none, environment? := none } "  Grace  ") = false) := by
  have h : ∃ c ∈ ("  Grace  " : String).data, isJsWhitespace c = false := by decide
  refine ⟨h, ?_⟩
  have hmain := hello_someone_success { greetingPrefix? := none, environment? := none } "  Grace  " h
  refine ⟨?_, hmain.2⟩
  rw [hmain.1]
  rfl

/-- C2: for every whitespace-only input (the empty string included) and
every environment, `hello-someone` returns `isError = true` with text
exactly `"Error: Please provide a name"`; the greeting prefix value is
irrelevant to this branch. -/
theorem hello_someone_whitespace_only (env : Env) (s : String)
    (h : ∀ c ∈ s.data, isJsWhitespace c) :
    helloSomeone env s =
      { content := [{ type := "text", text := "Error: Please provide a name" }]
        isError? := some true } := by
  have he : jsTrim s = "" := (jsTrim_eq_empty_iff s).mpr h
  simp [helloSomeone, he]

/-- C2 witness: with `GREETING_PREFIX = "Yo"`, `hello-someone("")` is the
error result. -/
theorem hello_someone_whitespace_only_witness :
    (∀ c ∈ ("" : String).data, isJsWhitespace c) ∧
    helloSomeone { greetingPrefix? := some "Yo", environment? := none } "" =
      { content := [{ type := "text", text := "Error: Please provide a name" }]
        isError? := some true } :=
  ⟨by decide,
   hello_someone_whitespace_only { greetingPrefix? := some "Yo", environment? := none } ""
     (by decide)⟩

/-- C3: for every environment state, the `server-info` resource returns a
single content item whose text is the JSON serialization of the `info`
object — exactly the fields name, version, description, features (three
entries), author, status `"running"`, greeting_prefix and sample_greeting,
with sample_greeting equal to `"<prefix>, World!"` for the current prefix. -/
theorem server_info_shape (env : Env) (uri : String) :
    serverInfo env uri =
      { contents := [{ uri := uri, text := jsonStringifyInfo (serverInfoObj env) }] } ∧
    (serverInfoObj env).features.length = 3 ∧
    (serverInfoObj env).status = "running" ∧
    ServerInfo.greeting_prefix (serverInfoObj env) = greetingPrefixOf env ∧
    (serverInfoObj env).sample_greeting = greetingPrefixOf env ++ ", World!" :=
  ⟨rfl, rfl, rfl, rfl, rfl⟩

/-- C8: the `hello-someone` result always carries exactly one `"text"`
content item, and the `isError` field is present (and `true`) exactly on
the whitespace-input branch — the success branch omits it entirely. -/
theorem hello_someone_iserror_field (env : Env) (name : String) :
    (helloSomeone env name).content.map TextContent.type = ["text"] ∧
    (helloSomeone env name).isError? = (if jsTrim name = "" then some true else none) := by
  by_cases h : jsTrim name = "" <;> simp [helloSomeone, h]

/-- C9: `hello-someone` is invariant under trimming of its input. -/
theorem hello_someone_trim_invariant (env : Env) (s : String) :
    helloSomeone env s = helloSomeone env (jsTrim s) := by
  simp only [helloSomeone, jsTrim_idem]

/-- C4: the greeting prefix is read at handler-invocation time, never
cached: in a two-dispatch sequence whose second request runs under a
changed environment, both the `hello-someone` and the `server-info`
output of the second dispatch use the second environment's prefix,
whatever the first environment was. -/
theorem greeting_prefix_read_per_call (e1 e2 : Env) (r : Request) (name uri : String)
    (h : jsTrim name ≠ "") :
    runSeq [(e1, r), (e2, Request.tool name)] =
      [dispatch e1 r,
       DispatchResult.tool
         { content := [{ type := "text"
                         text := greetingPrefixOf e2 ++ ", " ++ jsTrim name ++
                           "! Nice to meet you!" }]
           isError? := none }] ∧
    runSeq [(e1, r), (e2, Request.resource uri)] =
      [dispatch e1 r,
       DispatchResult.resource
         { contents := [{ uri := uri, text := jsonStringifyInfo (serverInfoObj e2) }] }] ∧
    (serverInfoObj e2).sample_greeting = greetingPrefixOf e2 ++ ", World!" := by
  refine ⟨?_, rfl, rfl⟩
  simp [runSeq, dispatch, helloSomeone, h]

/-- C4 witness: with the prefix changed from `"Hello"` to `"Yo"` between
the two dispatches, the second dispatch uses `"Yo"`. -/
theorem greeting_prefix_read_per_call_witness :
    jsTrim "Grace" ≠ "" ∧
    (runSeq [({ greetingPrefix? := some "Hello", environment? := none },
              Request.tool "Grace"),
             ({ greetingPrefix? := some "Yo", environment? := none },
              Request.tool "Grace")] =
       [dispatch { greetingPrefix? := some "Hello", environment? := none }
          (Request.tool "Grace"),
        DispatchResult.tool
          { content := [{ type := "text"
                          text := greetingPrefixOf
                              { greetingPrefix? := some "Yo", environment? := none } ++
                            ", " ++ jsTrim "Grace" ++ "! Nice to meet you!" }]
            isError? := none }] ∧
     runSeq [({ greetingPrefix? := some "Hello", environment? := none },
              Request.tool "Grace"),
             ({ greetingPrefix? := some "Yo", environment? := none },
              Request.resource "server://info")] =
       [dispatch { greetingPrefix? := some "Hello", environment? := none }
          (Request.tool "Grace"),
        DispatchResult.resource
          { contents := [{ uri := "server://info"
                           text := jsonStringifyInfo (serverInfoObj
                             { greetingPrefix? := some "Yo", environment? := none }) }] }] ∧
     (serverInfoObj { greetingPrefix? := some "Yo", environment? := none }).sample_greeting =
       greetingPrefixOf { greetingPrefix? := some "Yo", environment? := none } ++ ", World!") :=
  ⟨by decide,
   greeting_prefix_read_per_call
     { greetingPrefix? := some "Hello", environment? := none }
     { greetingPrefix? := some "Yo", environment? := none }
     (Request.tool "Grace") "Grace" "server://info" (by decide)⟩

/-- C5: `greeting-prompt` with `person_name = "Ada"` returns exactly one
message with role `"user"`, whose text contains the substring `"for Ada"`
and whose example-format line embeds an example beginning with the
current greeting prefix. -/
theorem greeting_prompt_ada (env : Env) :
    ∃ t a b c d : String,
      (greetingPrompt env "Ada").messages =
        [{ role := "user", content := { type := "text", text := t } }] ∧
      t = a ++ "for Ada" ++ b ∧
      t = c ++ ("Example format: \"" ++ greetingPrefixOf env ++ ", [name]!") ++ d := by
  refine ⟨greetingPromptText env "Ada",
    "Please create a warm and friendly greeting ",
    " that starts with \"" ++ greetingPrefixOf env ++
      "\".\n\nThe greeting should be:\n1. Begin with the word \"" ++ greetingPrefixOf env ++
      "\"\n2. Be warm and welcoming\n3. Professional yet friendly  \n4. Appropriate for a first meeting\n5. Memorable and personal\n\nExample format: \"" ++
      greetingPrefixOf env ++
      ", [name]! [additional friendly message]\"\n\nMake it genuine and engaging.",
    "Please create a warm and friendly greeting for " ++ "Ada" ++
      " that starts with \"" ++ greetingPrefixOf env ++
      "\".\n\nThe greeting should be:\n1. Begin with the word \"" ++ greetingPrefixOf env ++
      "\"\n2. Be warm and welcoming\n3. Professional yet friendly  \n4. Appropriate for a first meeting\n5. Memorable and personal\n\n",
    " [additional friendly message]\"\n\nMake it genuine and engaging.",
    rfl, ?_, ?_⟩
  · have h1 : ("Please create a warm and friendly greeting for " ++ "Ada" : String) =
        "Please create a warm and friendly greeting " ++ "for Ada" := by decide
    simp only [greetingPromptText]
    rw [h1]
    simp only [String.append_assoc]
  · have h2 : ("\"\n2. Be warm and welcoming\n3. Professional yet friendly  \n4. Appropriate for a first meeting\n5. Memorable and personal\n\nExample format: \"" : String) =
        "\"\n2. Be warm and welcoming\n3. Professional yet friendly  \n4. Appropriate for a first meeting\n5. Memorable and personal\n\n" ++
          "Example format: \"" := by decide
    have h3 : (", [name]! [additional friendly message]\"\n\nMake it genuine and engaging." : String) =
        ", [name]!" ++ " [additional friendly message]\"\n\nMake it genuine and engaging." := by
      decide
    simp only [greetingPromptText]
    rw [h2, h3]
    simp only [String.append_assoc]

/-- C6: at the dispatch boundary a handler-thrown exception is caught and
converted — for tools and prompts into an in-band error result with
`isError = true` and descriptive text, never propagated; for resources
into a dispatch-level (protocol-level) failure. -/
theorem handler_exception_boundary (msg : String) (tr : ToolResult) (pr : PromptResult)
    (rr : ResourceResult) :
    dispatchBoundaryTool (HandlerOutcome.thrown msg) = inBandError msg ∧
    (dispatchBoundaryTool (HandlerOutcome.thrown msg)).isError? = some true ∧
    (dispatchBoundaryTool (HandlerOutcome.thrown msg)).content =
      [{ type := "text", text := "Error: " ++ msg }] ∧
    dispatchBoundaryPrompt (HandlerOutcome.thrown msg) =
      PromptCallOutput.errorResult (inBandError msg) ∧
    dispatchBoundaryResource (HandlerOutcome.thrown msg) = Except.error msg ∧
    dispatchBoundaryTool (HandlerOutcome.ok tr) = tr ∧
    dispatchBoundaryPrompt (HandlerOutcome.ok pr) = PromptCallOutput.ok pr ∧
    dispatchBoundaryResource (HandlerOutcome.ok rr) = Except.ok rr :=
  ⟨rfl, rfl, rfl, rfl, rfl, rfl, rfl, rfl⟩

/-- C7: the `ENVIRONMENT` variable has no behavioral effect on dispatch:
two environments agreeing on `GREETING_PREFIX` (whatever their
`ENVIRONMENT` values) produce identical results for all three
capabilities on equal inputs. -/
theorem environment_var_no_effect (e1 e2 : Env)
    (h : e1.greetingPrefix? = e2.greetingPrefix?)
    (name uri person : String) :
    helloSomeone e1 name = helloSomeone e2 name ∧
    serverInfo e1 uri = serverInfo e2 uri ∧
    greetingPrompt e1 person = greetingPrompt e2 person := by
  have hp : greetingPrefixOf e1 = greetingPrefixOf e2 := by
    simp [greetingPrefixOf, h]
  refine ⟨?_, ?_, ?_⟩
  · simp [helloSomeone, hp]
  · simp [serverInfo, serverInfoObj, hp]
  · simp [greetingPrompt, greetingPromptText, hp]

/-- C7 witness: two environments differing only in `ENVIRONMENT` give
identical outputs for all three capabilities. -/
theorem environment_var_no_effect_witness :
    ({ greetingPrefix? := some "Hi", environment? := some "development" } : Env).greetingPrefix? =
      ({ greetingPrefix? := some "Hi", environment? := some "production" } : Env).greetingPrefix? ∧
    (helloSomeone { greetingPrefix? := some "Hi", environment? := some "development" } "Grace" =
       helloSomeone { greetingPrefix? := some "Hi", environment? := some "production" } "Grace" ∧
     serverInfo { greetingPrefix? := some "Hi", environment? := some "development" }
         "server://info" =
       serverInfo { greetingPrefix? := some "Hi", environment? := some "production" }
         "server://info" ∧
     greetingPrompt { greetingPrefix? := some "Hi", environment? := some "development" } "Ada" =
       greetingPrompt { greetingPrefix? := some "Hi", environment? := some "production" } "Ada") :=
  ⟨rfl,
   environment_var_no_effect
     { greetingPrefix? := some "Hi", environment? := some "development" }
     { greetingPrefix? := some "Hi", environment? := some "production" }
     rfl "Grace" "server://info" "Ada"⟩

/-- C10: `greeting-prompt` performs no emptiness or whitespace validation:
for every `person_name` (empty and whitespace-only strings included) it
returns exactly one normal user-role message embedding `person_name`
verbatim, with no error branch. -/
theorem greeting_prompt_no_validation (env : Env) (person_name : String) :
    (greetingPrompt env person_name).messages =
      [{ role := "user"
         content := { type := "text", text := greetingPromptText env person_name } }] ∧
    ∃ a b : String, greetingPromptText env person_name = a ++ person_name ++ b := by
  refine ⟨rfl, "Please create a warm and friendly greeting for ",
    " that starts with \"" ++ greetingPrefixOf env ++
      "\".\n\nThe greeting should be:\n1. Begin with the word \"" ++ greetingPrefixOf env ++
      "\"\n2. Be warm and welcoming\n3. Professional yet friendly  \n4. Appropriate for a first meeting\n5. Memorable and personal\n\nExample format: \"" ++
      greetingPrefixOf env ++
      ", [name]! [additional friendly message]\"\n\nMake it genuine and engaging.", ?_⟩
  simp only [greetingPromptText]
  simp only [String.append_assoc]

end EzMcp
